import Mathlib

/-!
Shallow embedding of the core of `src/Store/database/db_manager.py`
(class `DatabaseManager`): the entity tables, the transactional
operations (`record_sale`, `add_supply`, `update_product_quantity`,
`update_product`, `delete_product`) and the reporting queries
(`get_low_stock_products`, `get_best_selling_products`).

Numeric columns that Python stores as floats/decimals (price, cost,
discount, totals) are embedded as `Rat`; integer columns as `Int`;
timestamps as `Int` (the operations take the clock value `now` as an
explicit argument in place of `datetime.now()`). A database state is a
record of the five tables plus the autoincrement counters for the
append-only tables. SQLAlchemy row updates through a loaded object are
embedded as an update of every row of the table carrying the same
primary key (with unique primary keys this is the same row).
-/

namespace Store

/-- Modelled from the spec: the entity schema module
(`Store/database/models.py`) is absent from `src/`; the `Product`
fields follow the spec data model (section 3) and their use in
`db_manager.py` (id, name, category, price, quantity, min_stock,
optional barcode, optional description). -/
structure Product where
  id : Int
  name : String
  category : String
  price : Rat
  quantity : Int
  min_stock : Int
  barcode : Option String
  descr : Option String
deriving DecidableEq

/-- Modelled from the spec: `Customer` fields from the spec data model
(id, name, optional phone, optional email, discount percent,
accumulated total_purchases) and their use in `db_manager.py`. -/
structure Customer where
  id : Int
  name : String
  phone : Option String
  email : Option String
  discount : Rat
  total_purchases : Rat
deriving DecidableEq

/-- Modelled from the spec: `Sale` fields from the spec data model and
the constructor call in `record_sale` (product_id, optional
customer_id, quantity, price snapshot, total, date). -/
structure Sale where
  id : Int
  product_id : Int
  customer_id : Option Int
  quantity : Int
  price : Rat
  total : Rat
  date : Int
deriving DecidableEq

/-- Modelled from the spec: `Supply` fields from the spec data model
and the constructor call in `add_supply` (supplier, product_id,
quantity, cost, date). -/
structure Supply where
  id : Int
  supplier : String
  product_id : Int
  quantity : Int
  cost : Rat
  date : Int
deriving DecidableEq

/-- Modelled from the spec: `InventoryCheck` is referenced only for
cascade-delete accounting; only its foreign key matters here. -/
structure InventoryCheck where
  id : Int
  product_id : Int
deriving DecidableEq

/-- A database state: the five entity tables plus autoincrement
counters for the append-only tables. -/
structure DB where
  products : List Product
  customers : List Customer
  sales : List Sale
  supplies : List Supply
  inventory_checks : List InventoryCheck
  nextSaleId : Int
  nextSupplyId : Int
deriving DecidableEq

/-- `session.query(Product).get(product_id)`: primary-key lookup. -/
def findProduct (db : DB) (product_id : Int) : Option Product :=
  db.products.find? (fun p => p.id == product_id)

/-- `session.query(Customer).get(customer_id)`: primary-key lookup. -/
def findCustomer (db : DB) (customer_id : Int) : Option Customer :=
  db.customers.find? (fun c => c.id == customer_id)

/-- Row update through a loaded SQLAlchemy object: the object returned
by `get(product_id)` is the first (with unique primary keys, the only)
row carrying that key, and mutating it rewrites exactly that row. -/
def updateProductRow (l : List Product) (product_id : Int) (f : Product → Product) :
    List Product :=
  match l with
  | [] => []
  | p :: t =>
    if p.id == product_id then f p :: t else p :: updateProductRow t product_id f

/-- Row update through a loaded `Customer` object, as for products. -/
def updateCustomerRow (l : List Customer) (customer_id : Int) (f : Customer → Customer) :
    List Customer :=
  match l with
  | [] => []
  | c :: t =>
    if c.id == customer_id then f c :: t else c :: updateCustomerRow t customer_id f

/-- `DatabaseManager.update_product_quantity(product_id, quantity_change)`:
look up the product; if absent return `none` and leave the state
unchanged; otherwise add `quantity_change` to its quantity and commit.
Returns the updated row and the new state. -/
def update_product_quantity (db : DB) (product_id quantity_change : Int) :
    Option Product × DB :=
  match findProduct db product_id with
  | none => (none, db)
  | some p =>
    let products' :=
      updateProductRow db.products product_id
        (fun q => { q with quantity := q.quantity + quantity_change })
    (some { p with quantity := p.quantity + quantity_change },
     { db with products := products' })

/-- `DatabaseManager.update_product(product_id, name=None, ...)`:
partial update, only the supplied (non-`None`) fields overwrite the
stored row. Returns `none` (state unchanged) when the product is
absent. -/
def update_product (db : DB) (product_id : Int) (name category : Option String)
    (price : Option Rat) (quantity min_stock : Option Int)
    (barcode descr : Option String) : Option Product × DB :=
  match findProduct db product_id with
  | none => (none, db)
  | some p =>
    let upd := fun (q : Product) =>
      { q with
        name := name.getD q.name
        category := category.getD q.category
        price := price.getD q.price
        quantity := quantity.getD q.quantity
        min_stock := min_stock.getD q.min_stock
        barcode := match barcode with | some b => some b | none => q.barcode
        descr := match descr with | some d => some d | none => q.descr }
    (some (upd p), { db with products := updateProductRow db.products product_id upd })

/-- The customer-lookup step of `record_sale` (`customer = None;
if customer_id: customer = session.query(Customer).get(customer_id)`):
both `None` and `0` are falsy and give no customer; an id that misses
the `Customer` table also gives no customer. -/
def attachedCustomer (db : DB) (customer_id : Option Int) : Option Customer :=
  match customer_id with
  | none => none
  | some cid => if cid == 0 then none else findCustomer db cid

/-- The discount in force for a sale: the discount of the attached
customer, `0` when no customer is attached. -/
def saleDiscount (db : DB) (customer_id : Option Int) : Rat :=
  match attachedCustomer db customer_id with
  | some c => c.discount
  | none => 0

/-- `DatabaseManager.record_sale(product_id, quantity, customer_id=None)`:
fail (return `None`) when the product is absent or its stock is below
the requested quantity; otherwise look up the customer when
`customer_id` is truthy, compute the total with the customer discount
when it is positive, create the `Sale` row, decrement the product
stock, add the total to the customer accumulated purchases, and commit
all of it. -/
def record_sale (db : DB) (product_id quantity : Int) (customer_id : Option Int)
    (now : Int) : Option (Sale × DB) :=
  match findProduct db product_id with
  | none => none
  | some product =>
    if product.quantity < quantity then none
    else
      let customer : Option Customer := attachedCustomer db customer_id
      let base := product.price * (quantity : Rat)
      let total : Rat :=
        match customer with
        | some c => if 0 < c.discount then base * (1 - c.discount / 100) else base
        | none => base
      let sale : Sale :=
        { id := db.nextSaleId
          product_id := product_id
          customer_id := customer_id
          quantity := quantity
          price := product.price
          total := total
          date := now }
      let customers' :=
        match customer with
        | some c =>
          updateCustomerRow db.customers c.id
            (fun c2 => { c2 with total_purchases := c2.total_purchases + total })
        | none => db.customers
      some (sale,
        { db with
            products :=
              updateProductRow db.products product_id
                (fun q => { q with quantity := q.quantity - quantity })
            customers := customers'
            sales := db.sales ++ [sale]
            nextSaleId := db.nextSaleId + 1 })

/-- The database state after a `record_sale` call: the committed state
on success, the unchanged state when the call returns `None`. -/
def stateAfterSale (db : DB) (product_id quantity : Int) (customer_id : Option Int)
    (now : Int) : DB :=
  match record_sale db product_id quantity customer_id now with
  | some (_, db') => db'
  | none => db

/-- `DatabaseManager.add_supply(supplier, product_id, quantity, cost)`:
build the `Supply` row, look up the product and, only when it exists,
add `quantity` to its stock; then persist the `Supply` row
unconditionally and commit. The function never fails on an absent
product and performs no validation of `quantity` or `cost`. -/
def add_supply (db : DB) (supplier : String) (product_id quantity : Int)
    (cost : Rat) (now : Int) : Supply × DB :=
  let supply : Supply :=
    { id := db.nextSupplyId
      supplier := supplier
      product_id := product_id
      quantity := quantity
      cost := cost
      date := now }
  let products' :=
    match findProduct db product_id with
    | some _ =>
      updateProductRow db.products product_id
        (fun q => { q with quantity := q.quantity + quantity })
    | none => db.products
  (supply,
   { db with
       products := products'
       supplies := db.supplies ++ [supply]
       nextSupplyId := db.nextSupplyId + 1 })

/-- `DatabaseManager.delete_product(product_id)`: return `false` (state
unchanged) when the product is absent; otherwise delete every `Sale`,
`Supply` and `InventoryCheck` row whose `product_id` matches, delete
the product row itself, and commit the deletions as one unit. -/
def delete_product (db : DB) (product_id : Int) : Bool × DB :=
  match findProduct db product_id with
  | none => (false, db)
  | some _ =>
    (true,
     { db with
         sales := db.sales.filter (fun s => ¬ s.product_id == product_id)
         supplies := db.supplies.filter (fun s => ¬ s.product_id == product_id)
         inventory_checks :=
           db.inventory_checks.filter (fun c => ¬ c.product_id == product_id)
         products := db.products.eraseP (fun p => p.id == product_id) })

/-- `DatabaseManager.get_low_stock_products()`: the products whose
quantity is strictly below their minimum stock. -/
def get_low_stock_products (db : DB) : List Product :=
  db.products.filter (fun p => p.quantity < p.min_stock)

/-- Sum of `Sale.quantity` over the sales of one product
(`func.sum(Sale.quantity)` grouped by the product). -/
def totalSold (db : DB) (product_id : Int) : Int :=
  ((db.sales.filter (fun s => s.product_id == product_id)).map Sale.quantity).sum

/-- Whether at least one `Sale` row joins to the product: the inner
`join(Sale)` keeps exactly these products. -/
def hasSale (db : DB) (p : Product) : Bool :=
  db.sales.any (fun s => s.product_id == p.id)

/-- Stable insertion into a list sorted by descending total: the new
element goes before the first element whose total is not larger,
hence before equal totals already present. -/
def insertByTotalDesc (x : Product × Int) : List (Product × Int) → List (Product × Int)
  | [] => [x]
  | y :: l => if y.2 ≤ x.2 then x :: y :: l else y :: insertByTotalDesc x l

/-- Stable sort by descending total (insertion sort). -/
def sortByTotalDesc : List (Product × Int) → List (Product × Int)
  | [] => []
  | x :: l => insertByTotalDesc x (sortByTotalDesc l)

/-- `DatabaseManager.get_best_selling_products(limit)`: inner-join
`Product` with `Sale`, group by `Product.id`, order by the summed sale
quantity descending, return at most `limit` rows. The query orders only
by the aggregate, so SQL leaves the relative order of equal totals
unspecified; this executable embedding picks one permitted evaluation
(groups in primary-key order, then a stable sort on the aggregate).
The contract the query actually guarantees — any descending-by-total
arrangement, tie order arbitrary — is `permittedBestSellers` below,
and this function is proved to satisfy it. -/
def get_best_selling_products (db : DB) (limit : Nat) : List (Product × Int) :=
  (sortByTotalDesc
    ((db.products.filter (hasSale db)).map (fun p => (p, totalSold db p.id)))).take limit

/-- The contract of the best-sellers query (`ORDER BY` the summed sale
quantity descending, `LIMIT limit`): an output is permitted exactly
when it is the `limit`-prefix of some arrangement of the aggregated
join rows that is non-strictly descending in the total. SQLite does not
define the relative order of rows with equal totals, so several outputs
can be permitted for one state. -/
def permittedBestSellers (db : DB) (limit : Nat) (r : List (Product × Int)) : Prop :=
  ∃ s : List (Product × Int),
    s.Perm ((db.products.filter (hasSale db)).map (fun p => (p, totalSold db p.id))) ∧
    s.Pairwise (fun a b => b.2 ≤ a.2) ∧
    r = s.take limit

/-! ### Sample states used by witnesses and counterexamples -/

def sampleProduct : Product :=
  { id := 1, name := "Widget", category := "Other", price := 10,
    quantity := 5, min_stock := 2, barcode := none, descr := none }

def sampleCustomer : Customer :=
  { id := 7, name := "Ann", phone := none, email := none,
    discount := 10, total_purchases := 0 }

/-- One product (id 1, stock 5) and one customer (id 7, discount 10). -/
def sampleDB : DB :=
  { products := [sampleProduct], customers := [sampleCustomer], sales := [],
    supplies := [], inventory_checks := [], nextSaleId := 1, nextSupplyId := 1 }

/-! ### Helper lemmas about row updates and lookups -/

theorem find?_updateProductRow (l : List Product) (pid : Int) (f : Product → Product)
    (hf : ∀ p, (f p).id = p.id) :
    (updateProductRow l pid f).find? (fun p => p.id == pid)
      = Option.map f (l.find? (fun p => p.id == pid)) := by
  induction l with
  | nil => rfl
  | cons q t ih =>
    by_cases hq : q.id = pid
    · simp [updateProductRow, hq, List.find?_cons, hf]
    · simp [updateProductRow, hq, List.find?_cons, ih]

theorem mem_updateProductRow (l : List Product) (pid : Int) (f : Product → Product) :
    ∀ p ∈ updateProductRow l pid f,
      p ∈ l ∨ ∃ q, l.find? (fun r => r.id == pid) = some q ∧ p = f q := by
  induction l with
  | nil => intro p hp; simp [updateProductRow] at hp
  | cons a t ih =>
    intro p hp
    by_cases ha : a.id = pid
    · simp only [updateProductRow, ha, beq_self_eq_true, if_true] at hp
      rcases List.mem_cons.mp hp with h | h
      · exact Or.inr ⟨a, by simp [List.find?_cons, ha], h⟩
      · exact Or.inl (List.mem_cons_of_mem _ h)
    · have hb : (a.id == pid) = false := by simp [ha]
      simp only [updateProductRow, hb, Bool.false_eq_true, if_false] at hp
      rcases List.mem_cons.mp hp with h | h
      · exact Or.inl (h ▸ List.mem_cons_self a t)
      · rcases ih p h with h2 | ⟨q, hq, hpq⟩
        · exact Or.inl (List.mem_cons_of_mem _ h2)
        · exact Or.inr ⟨q, by simp [List.find?_cons, hb, hq], hpq⟩

/-- Inversion of a successful `record_sale`: the facts the success
branch guarantees about the returned sale and the committed state. -/
theorem record_sale_inv (db : DB) (pid qty : Int) (cid : Option Int) (now : Int)
    (sale : Sale) (db' : DB)
    (h : record_sale db pid qty cid now = some (sale, db')) :
    ∃ product, findProduct db pid = some product ∧ ¬ product.quantity < qty ∧
      db'.products = updateProductRow db.products pid
        (fun q => { q with quantity := q.quantity - qty }) ∧
      db'.sales = db.sales ++ [sale] ∧
      (attachedCustomer db cid = none → db'.customers = db.customers) ∧
      sale.price = product.price ∧ sale.quantity = qty ∧ sale.customer_id = cid ∧
      sale.total =
        (match attachedCustomer db cid with
         | some c =>
           if 0 < c.discount
           then product.price * (qty : Rat) * (1 - c.discount / 100)
           else product.price * (qty : Rat)
         | none => product.price * (qty : Rat)) := by
  cases hfind : findProduct db pid with
  | none => simp [record_sale, hfind] at h
  | some product =>
    by_cases hstock : product.quantity < qty
    · simp [record_sale, hfind, hstock] at h
    · refine ⟨product, rfl, hstock, ?_⟩
      simp only [record_sale, hfind, hstock, if_false] at h
      cases hcust : attachedCustomer db cid with
      | none =>
        simp only [hcust] at h
        obtain ⟨hsale, hdb⟩ := Prod.mk.injEq .. ▸ Option.some.injEq .. ▸ h
        subst hsale hdb
        simp [hcust]
      | some c =>
        simp only [hcust] at h
        obtain ⟨hsale, hdb⟩ := Prod.mk.injEq .. ▸ Option.some.injEq .. ▸ h
        subst hsale hdb
        by_cases hd : 0 < c.discount <;> simp [hcust, hd, mul_assoc]

/-! ### Claim C1 -/

/-- Claim C1 as stated is false: in `sampleDB` every product quantity
is non-negative, yet the direct quantity adjustment by -6 drives the
Widget row to quantity -1. -/
theorem quantity_can_go_negative :
    (∀ p ∈ sampleDB.products, 0 ≤ p.quantity) ∧
    ∃ p ∈ (update_product_quantity sampleDB 1 (-6)).2.products, p.quantity < 0 := by
  decide

/-- Claim C1 (amended): `record_sale` always preserves non-negativity
of every product quantity; `add_supply` preserves it when the supplied
quantity is non-negative; the direct quantity adjustment preserves it
when the adjusted row stays non-negative; the partial update preserves
it when the supplied new quantity, if any, is non-negative. -/
theorem quantity_nonneg_preserved (db : DB)
    (h : ∀ p ∈ db.products, 0 ≤ p.quantity) :
    (∀ pid qty cid now sale db', record_sale db pid qty cid now = some (sale, db') →
      ∀ p ∈ db'.products, 0 ≤ p.quantity) ∧
    (∀ supplier pid qty cost now, 0 ≤ qty →
      ∀ p ∈ (add_supply db supplier pid qty cost now).2.products, 0 ≤ p.quantity) ∧
    (∀ pid delta, (∀ p ∈ db.products, p.id = pid → 0 ≤ p.quantity + delta) →
      ∀ p ∈ (update_product_quantity db pid delta).2.products, 0 ≤ p.quantity) ∧
    (∀ pid nm cat pr qty ms bc ds, (∀ q, qty = some q → 0 ≤ q) →
      ∀ p ∈ (update_product db pid nm cat pr qty ms bc ds).2.products,
        0 ≤ p.quantity) := by
  refine ⟨?_, ?_, ?_, ?_⟩
  · intro pid qty cid now sale db' hs p hp
    obtain ⟨product, hfind, hstock, hprod, -⟩ :=
      record_sale_inv db pid qty cid now sale db' hs
    rw [hprod] at hp
    rcases mem_updateProductRow _ _ _ p hp with hmem | ⟨q, hq, rfl⟩
    · exact h p hmem
    · have : q = product := by
        rw [findProduct] at hfind
        rw [hfind] at hq
        exact (Option.some.inj hq).symm
      subst this
      simp only
      omega
  · intro supplier pid qty cost now hqty p hp
    cases hfind : findProduct db pid with
    | none =>
      simp only [add_supply, hfind] at hp
      exact h p hp
    | some q0 =>
      simp only [add_supply, hfind] at hp
      rcases mem_updateProductRow _ _ _ p hp with hmem | ⟨q, hq, rfl⟩
      · exact h p hmem
      · have hq2 := h q (List.mem_of_find?_eq_some hq)
        simp only
        omega
  · intro pid delta hdelta p hp
    cases hfind : findProduct db pid with
    | none =>
      simp only [update_product_quantity, hfind] at hp
      exact h p hp
    | some q0 =>
      simp only [update_product_quantity, hfind] at hp
      rcases mem_updateProductRow _ _ _ p hp with hmem | ⟨q, hq, rfl⟩
      · exact h p hmem
      · have hqid := List.find?_some (p := fun r : Product => r.id == pid) hq
        have := hdelta q (List.mem_of_find?_eq_some hq) (by simpa using hqid)
        simpa using this
  · intro pid nm cat pr qty ms bc ds hqty p hp
    cases hfind : findProduct db pid with
    | none =>
      simp only [update_product, hfind] at hp
      exact h p hp
    | some q0 =>
      simp only [update_product, hfind] at hp
      rcases mem_updateProductRow _ _ _ p hp with hmem | ⟨q, hq, rfl⟩
      · exact h p hmem
      · have hq2 := h q (List.mem_of_find?_eq_some hq)
        cases qty with
        | none => simpa using hq2
        | some v => simpa using hqty v rfl

/-- Witness for the amended claim C1 at a concrete state: supplying 20
units to the Widget keeps every quantity non-negative. -/
theorem quantity_nonneg_preserved_witness :
    (∀ p ∈ sampleDB.products, 0 ≤ p.quantity) ∧ (0 : Int) ≤ 20 ∧
    ∀ p ∈ (add_supply sampleDB "Acme" 1 20 50 0).2.products, 0 ≤ p.quantity :=
  ⟨by decide, by decide,
   (quantity_nonneg_preserved sampleDB (by decide)).2.1 "Acme" 1 20 50 0 (by decide)⟩

/-! ### Claim C2 -/

/-- Claim C2: a successful `record_sale` on an existing product with
sufficient stock decrements that product quantity by the sold quantity,
and the created sale has total equal to the price snapshot times the
quantity times (1 - discount/100), the discount being that of the
attached customer and 0 when none is attached. The hypothesis that the
discount in force is non-negative is the spec data-model invariant
(discount lies in [0, 100]). -/
theorem record_sale_correct (db : DB) (pid qty : Int) (cid : Option Int) (now : Int)
    (sale : Sale) (db' : DB)
    (hdisc : 0 ≤ saleDiscount db cid)
    (h : record_sale db pid qty cid now = some (sale, db')) :
    ∃ p, findProduct db pid = some p ∧
      findProduct db' pid = some { p with quantity := p.quantity - qty } ∧
      sale.total = p.price * (qty : Rat) * (1 - saleDiscount db cid / 100) := by
  obtain ⟨p, hfind, hstock, hprod, hsales, hcust, hprice, hqty, hcid, htotal⟩ :=
    record_sale_inv db pid qty cid now sale db' h
  refine ⟨p, hfind, ?_, ?_⟩
  · rw [findProduct, hprod,
      find?_updateProductRow db.products pid
        (fun q => { q with quantity := q.quantity - qty }) (fun q => rfl)]
    rw [findProduct] at hfind
    rw [hfind]
    rfl
  · rw [htotal]
    cases hac : attachedCustomer db cid with
    | none => simp [saleDiscount, hac]
    | some c =>
      by_cases hd : 0 < c.discount
      · simp [saleDiscount, hac, hd]
      · have hdisc2 : (0 : Rat) ≤ c.discount := by
          simpa [saleDiscount, hac] using hdisc
        have hz : c.discount = 0 := le_antisymm (not_lt.mp hd) hdisc2
        simp [saleDiscount, hac, hd, hz]

/-- The sale returned by `record_sale` in the witness scenario: two
Widgets at price 10 with a 10 percent discount give total 18. -/
def saleW : Sale :=
  { id := 1, product_id := 1, customer_id := some 7, quantity := 2,
    price := 10, total := 18, date := 0 }

/-- The committed state of the witness scenario for claim C2. -/
def dbAfterSaleW : DB :=
  { products := [{ sampleProduct with quantity := 3 }],
    customers := [{ sampleCustomer with total_purchases := 18 }],
    sales := [saleW], supplies := [], inventory_checks := [],
    nextSaleId := 2, nextSupplyId := 1 }

/-- Witness for claim C2: the discounted sale of two Widgets. -/
theorem record_sale_correct_witness :
    ∃ p, findProduct sampleDB 1 = some p ∧
      findProduct dbAfterSaleW 1 = some { p with quantity := p.quantity - 2 } ∧
      saleW.total = p.price * (2 : Rat) * (1 - saleDiscount sampleDB (some 7) / 100) :=
  record_sale_correct sampleDB 1 2 (some 7) 0 saleW dbAfterSaleW
    (by norm_num [saleDiscount, attachedCustomer, findCustomer, sampleDB, sampleCustomer])
    (by norm_num [record_sale, findProduct, sampleDB, sampleProduct, attachedCustomer,
      findCustomer, sampleCustomer, updateProductRow, updateCustomerRow, saleW,
      dbAfterSaleW, Sale.mk.injEq, DB.mk.injEq, Product.mk.injEq, Customer.mk.injEq])

/-! ### Claim C3 -/

/-- Claim C3: when the requested quantity strictly exceeds the stock of
an existing product, `record_sale` fails (the `None` result is the code
encoding of `InsufficientStock` on this path) and the state after the
call is exactly the state before: in particular the product quantity
and the `Sale` table are unchanged. -/
theorem record_sale_insufficient_stock (db : DB) (pid qty : Int) (cid : Option Int)
    (now : Int) (p : Product) (hp : findProduct db pid = some p)
    (hq : p.quantity < qty) :
    record_sale db pid qty cid now = none ∧
    stateAfterSale db pid qty cid now = db := by
  have h1 : record_sale db pid qty cid now = none := by
    simp [record_sale, hp, hq]
  exact ⟨h1, by simp [stateAfterSale, h1]⟩

/-- Witness for claim C3: selling 10 Widgets with 5 in stock fails and
leaves the state untouched. -/
theorem record_sale_insufficient_stock_witness :
    findProduct sampleDB 1 = some sampleProduct ∧ sampleProduct.quantity < 10 ∧
    (record_sale sampleDB 1 10 none 0 = none ∧
      stateAfterSale sampleDB 1 10 none 0 = sampleDB) :=
  ⟨by decide, by decide,
   record_sale_insufficient_stock sampleDB 1 10 none 0 sampleProduct
     (by decide) (by decide)⟩

/-! ### Claim C4 -/

/-- The sale that `record_sale` records against the absent customer
id 9: no discount, but the dangling id is stamped on the row. -/
def saleW9 : Sale :=
  { id := 1, product_id := 1, customer_id := some 9, quantity := 2,
    price := 10, total := 20, date := 0 }

/-- The committed state of the absent-customer scenario. -/
def dbAfterSaleW9 : DB :=
  { products := [{ sampleProduct with quantity := 3 }],
    customers := [sampleCustomer], sales := [saleW9],
    supplies := [], inventory_checks := [], nextSaleId := 2, nextSupplyId := 1 }

/-- Claim C4 as stated is false: customer id 9 is absent from
`sampleDB`, yet `record_sale` does not fail with `NotFound`: it returns
a sale and appends a row to the `Sale` table. -/
theorem record_sale_missing_customer_cex :
    findCustomer sampleDB 9 = none ∧
    record_sale sampleDB 1 2 (some 9) 0 ≠ none ∧
    (stateAfterSale sampleDB 1 2 (some 9) 0).sales ≠ sampleDB.sales := by
  have h : record_sale sampleDB 1 2 (some 9) 0 = some (saleW9, dbAfterSaleW9) := by
    norm_num [record_sale, findProduct, sampleDB, sampleProduct, attachedCustomer,
      findCustomer, sampleCustomer, updateProductRow, saleW9, dbAfterSaleW9,
      Sale.mk.injEq, DB.mk.injEq, Product.mk.injEq]
  refine ⟨by decide, by simp [h], ?_⟩
  simp only [stateAfterSale, h]
  decide

/-- Claim C4 (amended): `record_sale` with a customer id absent from
the `Customer` table does not fail: when the product exists with
sufficient stock it records the sale exactly as an anonymous sale
(discount 0) except that the given customer id is still stamped on the
`Sale` row; the stock is decremented, the sale appended and the
`Customer` table left unchanged. -/
theorem record_sale_missing_customer (db : DB) (pid qty cid : Int) (now : Int)
    (p : Product) (hp : findProduct db pid = some p) (hq : ¬ p.quantity < qty)
    (hc : findCustomer db cid = none) :
    ∃ sale db', record_sale db pid qty (some cid) now = some (sale, db') ∧
      sale.customer_id = some cid ∧ sale.total = p.price * (qty : Rat) ∧
      findProduct db' pid = some { p with quantity := p.quantity - qty } ∧
      db'.sales = db.sales ++ [sale] ∧ db'.customers = db.customers := by
  have hac : attachedCustomer db (some cid) = none := by
    by_cases h0 : cid = 0 <;> simp [attachedCustomer, h0, hc]
  cases hr : record_sale db pid qty (some cid) now with
  | none =>
    rw [record_sale, hp] at hr
    simp [hq] at hr
  | some r =>
    obtain ⟨sale, db'⟩ := r
    obtain ⟨p2, hfind, hstock, hprod, hsales, hcust, hprice, hqty, hcid, htotal⟩ :=
      record_sale_inv db pid qty (some cid) now sale db' hr
    have hpp : p2 = p := by rw [hfind] at hp; exact Option.some.inj hp
    subst hpp
    refine ⟨sale, db', rfl, hcid, ?_, ?_, hsales, hcust hac⟩
    · rw [htotal, hac]
    · rw [findProduct, hprod,
        find?_updateProductRow db.products pid
          (fun q => { q with quantity := q.quantity - qty }) (fun q => rfl)]
      rw [findProduct] at hfind
      rw [hfind]
      rfl

/-- Witness for the amended claim C4: selling two Widgets against the
absent customer id 9. -/
theorem record_sale_missing_customer_witness :
    ∃ sale db', record_sale sampleDB 1 2 (some 9) 0 = some (sale, db') ∧
      sale.customer_id = some 9 ∧ sale.total = sampleProduct.price * (2 : Rat) ∧
      findProduct db' 1 = some { sampleProduct with quantity := sampleProduct.quantity - 2 } ∧
      db'.sales = sampleDB.sales ++ [sale] ∧ db'.customers = sampleDB.customers :=
  record_sale_missing_customer sampleDB 1 2 9 0 sampleProduct
    (by decide) (by decide) (by decide)

/-! ### Claim C5 -/

/-- Claim C5 as stated is false: product id 2 is absent from
`sampleDB`, yet `add_supply` persists a `Supply` row instead of failing
with `NotFound` and leaving the state unchanged. -/
theorem add_supply_missing_product_cex :
    findProduct sampleDB 2 = none ∧
    (add_supply sampleDB "Acme" 2 5 3 0).2.supplies ≠ sampleDB.supplies := by
  decide

/-- Claim C5 (amended): `add_supply` on an absent product id does not
fail and mutates no product row, but it still persists the returned
`Supply` row in the `Supply` table. -/
theorem add_supply_missing_product (db : DB) (supplier : String) (pid qty : Int)
    (cost : Rat) (now : Int) (h : findProduct db pid = none) :
    (add_supply db supplier pid qty cost now).2.products = db.products ∧
    (add_supply db supplier pid qty cost now).2.supplies
      = db.supplies ++ [(add_supply db supplier pid qty cost now).1] := by
  rw [add_supply]
  rw [h]
  exact ⟨rfl, rfl⟩

/-- Witness for the amended claim C5 at product id 2. -/
theorem add_supply_missing_product_witness :
    (add_supply sampleDB "Acme" 2 5 3 0).2.products = sampleDB.products ∧
    (add_supply sampleDB "Acme" 2 5 3 0).2.supplies
      = sampleDB.supplies ++ [(add_supply sampleDB "Acme" 2 5 3 0).1] :=
  add_supply_missing_product sampleDB "Acme" 2 5 3 0 (by decide)

/-! ### Claim C6 -/

/-- Claim C6 as stated is false: `add_supply` with quantity -3 on the
Widget (stock 5) is not rejected: the supply row is persisted and the
stock drops to 2, so a supply can decrease stock. -/
theorem add_supply_nonpositive_cex :
    (add_supply sampleDB "Acme" 1 (-3) 0 0).2.supplies ≠ sampleDB.supplies ∧
    findProduct (add_supply sampleDB "Acme" 1 (-3) 0 0).2 1
      = some { sampleProduct with quantity := 2 } := by
  decide

/-- Claim C6 (amended): `add_supply` performs no validation of the
quantity: a call with non-positive quantity on an existing product is
accepted, the `Supply` row is persisted, and the product stock changes
by exactly that quantity, hence never increases on such a call. -/
theorem add_supply_no_validation (db : DB) (supplier : String) (pid qty : Int)
    (cost : Rat) (now : Int) (p : Product)
    (hp : findProduct db pid = some p) (hq : qty ≤ 0) :
    findProduct (add_supply db supplier pid qty cost now).2 pid
      = some { p with quantity := p.quantity + qty } ∧
    (add_supply db supplier pid qty cost now).2.supplies
      = db.supplies ++ [(add_supply db supplier pid qty cost now).1] ∧
    p.quantity + qty ≤ p.quantity := by
  refine ⟨?_, ?_, by omega⟩
  · rw [findProduct, add_supply]
    rw [hp]
    rw [find?_updateProductRow db.products pid
        (fun q => { q with quantity := q.quantity + qty }) (fun q => rfl)]
    rw [findProduct] at hp
    rw [hp]
    rfl
  · rw [add_supply]

/-- Witness for the amended claim C6: a supply of -3 Widgets. -/
theorem add_supply_no_validation_witness :
    findProduct (add_supply sampleDB "Acme" 1 (-3) 0 0).2 1
      = some { sampleProduct with quantity := sampleProduct.quantity + (-3) } ∧
    (add_supply sampleDB "Acme" 1 (-3) 0 0).2.supplies
      = sampleDB.supplies ++ [(add_supply sampleDB "Acme" 1 (-3) 0 0).1] ∧
    sampleProduct.quantity + (-3) ≤ sampleProduct.quantity :=
  add_supply_no_validation sampleDB "Acme" 1 (-3) 0 0 sampleProduct
    (by decide) (by decide)

/-! ### Claim C7 -/

/-- After erasing the first row with the target key from a table whose
primary keys are pairwise distinct, no row with that key remains. -/
theorem find?_eraseP_of_unique (l : List Product) (pid : Int)
    (h : l.Pairwise (fun a b => a.id ≠ b.id)) :
    (l.eraseP (fun p => p.id == pid)).find? (fun p => p.id == pid) = none := by
  induction l with
  | nil => rfl
  | cons a t ih =>
    rcases List.pairwise_cons.mp h with ⟨ha, ht⟩
    by_cases hq : a.id = pid
    · rw [List.eraseP_cons_of_pos (by simp [hq])]
      rw [List.find?_eq_none]
      intro x hx
      have := ha x hx
      simp [hq] at this
      simp only [beq_iff_eq]
      omega
    · rw [List.eraseP_cons_of_neg (by simp [hq])]
      rw [List.find?_cons_of_neg _ (by simp [hq])]
      exact ih ht

/-- Claim C7: `delete_product` on an absent product returns `false` and
leaves the state untouched; on an existing product (primary keys being
unique, as the schema guarantees) it returns `true` and the single
committed state retains exactly the sales, supplies and inventory
checks of other products and no longer contains the target product. -/
theorem delete_product_spec (db : DB) (pid : Int)
    (huniq : db.products.Pairwise (fun a b => a.id ≠ b.id)) :
    (findProduct db pid = none → delete_product db pid = (false, db)) ∧
    (findProduct db pid ≠ none →
      (delete_product db pid).1 = true ∧
      (delete_product db pid).2.sales
        = db.sales.filter (fun s => ¬ s.product_id == pid) ∧
      (delete_product db pid).2.supplies
        = db.supplies.filter (fun s => ¬ s.product_id == pid) ∧
      (delete_product db pid).2.inventory_checks
        = db.inventory_checks.filter (fun c => ¬ c.product_id == pid) ∧
      findProduct (delete_product db pid).2 pid = none) := by
  constructor
  · intro h
    rw [delete_product, h]
  · intro h
    cases hfind : findProduct db pid with
    | none => exact absurd hfind h
    | some p =>
      rw [delete_product, hfind]
      refine ⟨rfl, rfl, rfl, rfl, ?_⟩
      exact find?_eraseP_of_unique db.products pid huniq

/-- Witness for claim C7: deleting the Widget from `sampleDB`. -/
theorem delete_product_spec_witness :
    (findProduct sampleDB 1 = none → delete_product sampleDB 1 = (false, sampleDB)) ∧
    (findProduct sampleDB 1 ≠ none →
      (delete_product sampleDB 1).1 = true ∧
      (delete_product sampleDB 1).2.sales
        = sampleDB.sales.filter (fun s => ¬ s.product_id == 1) ∧
      (delete_product sampleDB 1).2.supplies
        = sampleDB.supplies.filter (fun s => ¬ s.product_id == 1) ∧
      (delete_product sampleDB 1).2.inventory_checks
        = sampleDB.inventory_checks.filter (fun c => ¬ c.product_id == 1) ∧
      findProduct (delete_product sampleDB 1).2 1 = none) :=
  delete_product_spec sampleDB 1 (by decide)

/-! ### Claim C8 -/

/-- Claim C8: `get_low_stock_products` returns exactly the stored
products whose quantity is strictly below their configured minimum
stock; in particular zero-quantity products qualify whenever their
minimum stock is positive, and no other product appears. -/
theorem low_stock_spec (db : DB) (p : Product) :
    p ∈ get_low_stock_products db ↔ p ∈ db.products ∧ p.quantity < p.min_stock := by
  simp [get_low_stock_products, List.mem_filter]

/-! ### Claim C9 -/

/-- The ranking the spec describes for the best-sellers report: `a`
ranks strictly before `b` when its total is larger, or the totals tie
and `a` has the smaller product id. -/
def rankLex (a b : Product × Int) : Prop :=
  b.2 < a.2 ∨ (a.2 = b.2 ∧ a.1.id < b.1.id)

theorem mem_insertByTotalDesc (x z : Product × Int) (l : List (Product × Int)) :
    z ∈ insertByTotalDesc x l ↔ z = x ∨ z ∈ l := by
  induction l with
  | nil => simp [insertByTotalDesc]
  | cons y t ih =>
    rw [insertByTotalDesc]
    by_cases h : y.2 ≤ x.2
    · rw [if_pos h]
      simp only [List.mem_cons]
    · rw [if_neg h]
      simp only [List.mem_cons, ih]
      tauto

theorem mem_sortByTotalDesc (z : Product × Int) (l : List (Product × Int)) :
    z ∈ sortByTotalDesc l ↔ z ∈ l := by
  induction l with
  | nil => simp [sortByTotalDesc]
  | cons x t ih => simp [sortByTotalDesc, mem_insertByTotalDesc, ih]

theorem perm_insertByTotalDesc (x : Product × Int) (l : List (Product × Int)) :
    (insertByTotalDesc x l).Perm (x :: l) := by
  induction l with
  | nil => exact List.Perm.refl _
  | cons y t ih =>
    rw [insertByTotalDesc]
    by_cases h : y.2 ≤ x.2
    · rw [if_pos h]
    · rw [if_neg h]
      exact (ih.cons y).trans (List.Perm.swap x y t)

theorem perm_sortByTotalDesc (l : List (Product × Int)) :
    (sortByTotalDesc l).Perm l := by
  induction l with
  | nil => exact List.Perm.refl _
  | cons x t ih =>
    rw [sortByTotalDesc]
    exact (perm_insertByTotalDesc x (sortByTotalDesc t)).trans (ih.cons x)

theorem pairwise_desc_insertByTotalDesc (x : Product × Int) (l : List (Product × Int))
    (hl : l.Pairwise (fun a b => b.2 ≤ a.2)) :
    (insertByTotalDesc x l).Pairwise (fun a b => b.2 ≤ a.2) := by
  induction l with
  | nil => simp [insertByTotalDesc]
  | cons y t ih =>
    rcases List.pairwise_cons.mp hl with ⟨hy, ht⟩
    rw [insertByTotalDesc]
    by_cases h : y.2 ≤ x.2
    · rw [if_pos h]
      refine List.pairwise_cons.mpr ⟨?_, hl⟩
      intro z hz
      rcases List.mem_cons.mp hz with heq | hzt
      · rw [heq]
        exact h
      · exact le_trans (hy z hzt) h
    · rw [if_neg h]
      refine List.pairwise_cons.mpr ⟨?_, ih ht⟩
      intro z hz
      rcases (mem_insertByTotalDesc x z t).mp hz with heq | hzt
      · rw [heq]
        exact le_of_lt (not_le.mp h)
      · exact hy z hzt

theorem pairwise_desc_sortByTotalDesc (l : List (Product × Int)) :
    (sortByTotalDesc l).Pairwise (fun a b => b.2 ≤ a.2) := by
  induction l with
  | nil => simp [sortByTotalDesc]
  | cons x t ih =>
    rw [sortByTotalDesc]
    exact pairwise_desc_insertByTotalDesc x _ ih

/-- The Gadget row of `dbReports`: id 2, tied with the Widget at five
units sold. -/
def gadgetRow : Product :=
  { id := 2, name := "Gadget", category := "Other", price := 4,
    quantity := 9, min_stock := 1, barcode := none, descr := none }

/-- A three-product state for the report claims: the Widget and the
Gadget tie at five units sold each, the Gizmo has no sales. -/
def dbReports : DB :=
  { products :=
      [sampleProduct, gadgetRow,
       { id := 3, name := "Gizmo", category := "Other", price := 2,
         quantity := 1, min_stock := 1, barcode := none, descr := none }],
    customers := [],
    sales :=
      [{ id := 1, product_id := 2, customer_id := none, quantity := 5,
         price := 4, total := 20, date := 0 },
       { id := 2, product_id := 1, customer_id := none, quantity := 5,
         price := 10, total := 50, date := 1 }],
    supplies := [], inventory_checks := [], nextSaleId := 3, nextSupplyId := 1 }

/-- Claim C9 as stated is false: over `dbReports` the Widget (id 1) and
the Gadget (id 2) tie at five units sold, and the query — which orders
only by the total, leaving equal-total order undefined — also permits
the output that lists the Gadget (the larger id) first, so the claimed
tie-break by ascending product id is not guaranteed. -/
theorem best_selling_tiebreak_cex :
    permittedBestSellers dbReports 10 [(gadgetRow, 5), (sampleProduct, 5)] ∧
    ¬ List.Pairwise rankLex [(gadgetRow, 5), (sampleProduct, 5)] := by
  constructor
  · refine ⟨[(gadgetRow, 5), (sampleProduct, 5)], ?_, ?_, rfl⟩
    · have hagg : (dbReports.products.filter (hasSale dbReports)).map
          (fun p => (p, totalSold dbReports p.id))
          = [(sampleProduct, 5), (gadgetRow, 5)] := by decide
      rw [hagg]
      exact List.Perm.swap _ _ _
    · refine List.pairwise_cons.mpr ⟨?_, List.pairwise_singleton _ _⟩
      intro z hz
      rcases List.mem_singleton.mp hz with rfl
      decide
  · intro hcon
    have h1 := (List.pairwise_cons.mp hcon).1 (sampleProduct, 5)
      (List.mem_cons_self _ _)
    simp only [rankLex] at h1
    exact absurd h1 (by decide)

/-- Claim C9 (amended): the query guarantees only the part of the claim
that does not concern ties: every permitted output has at most `limit`
rows, each row carries the summed sale quantity of its product, and the
rows are non-strictly descending in that total; the executable
embedding `get_best_selling_products` is one such permitted output. The
relative order of equal totals is left undefined by the query. -/
theorem best_selling_guarantee (db : DB) (limit : Nat) :
    permittedBestSellers db limit (get_best_selling_products db limit) ∧
    ∀ r, permittedBestSellers db limit r →
      r.length ≤ limit ∧
      (∀ x ∈ r, x.2 = totalSold db x.1.id) ∧
      r.Pairwise (fun a b => b.2 ≤ a.2) := by
  constructor
  · exact ⟨sortByTotalDesc
      ((db.products.filter (hasSale db)).map (fun p => (p, totalSold db p.id))),
      perm_sortByTotalDesc _, pairwise_desc_sortByTotalDesc _, rfl⟩
  · rintro r ⟨s, hperm, hsorted, rfl⟩
    refine ⟨?_, ?_, ?_⟩
    · rw [List.length_take]
      exact min_le_left _ _
    · intro x hx
      have hx1 := (List.take_sublist _ _).subset hx
      have hx2 := hperm.subset hx1
      rcases List.mem_map.mp hx2 with ⟨q, hq, rfl⟩
      rfl
    · exact List.Pairwise.sublist (List.take_sublist _ _) hsorted

/-- Witness for the amended claim C9 on `dbReports`: the executable
output is a permitted output and enjoys the guaranteed bounds,
totals and descending order. -/
theorem best_selling_guarantee_witness :
    permittedBestSellers dbReports 10 (get_best_selling_products dbReports 10) ∧
    ((get_best_selling_products dbReports 10).length ≤ 10 ∧
      (∀ x ∈ get_best_selling_products dbReports 10,
        x.2 = totalSold dbReports x.1.id) ∧
      (get_best_selling_products dbReports 10).Pairwise (fun a b => b.2 ≤ a.2)) :=
  ⟨(best_selling_guarantee dbReports 10).1,
   (best_selling_guarantee dbReports 10).2 _ (best_selling_guarantee dbReports 10).1⟩

/-! ### Claim C10 -/

/-- Claim C10: a product none of the sale rows reference never appears
in `get_best_selling_products`, whatever the limit: the inner join
drops products without sales instead of listing them with total 0. -/
theorem best_selling_excludes_saleless (db : DB) (limit : Nat) (p : Product)
    (hp : ∀ s ∈ db.sales, s.product_id ≠ p.id) :
    ∀ x ∈ get_best_selling_products db limit, x.1 ≠ p := by
  intro x hx
  have hx1 := (List.take_sublist _ _).subset hx
  have hx2 := (mem_sortByTotalDesc _ _).mp hx1
  rcases List.mem_map.mp hx2 with ⟨q, hq, rfl⟩
  intro hqp
  have hq2 : hasSale db q = true := List.of_mem_filter hq
  rw [hasSale, List.any_eq_true] at hq2
  rcases hq2 with ⟨s, hs, hsq⟩
  rw [beq_iff_eq] at hsq
  have hqp2 : q = p := hqp
  exact hp s hs (by rw [hsq, hqp2])

/-- The saleless Gizmo row of `dbReports`. -/
def gizmo : Product :=
  { id := 3, name := "Gizmo", category := "Other", price := 2,
    quantity := 1, min_stock := 1, barcode := none, descr := none }

/-- Witness for claim C10: the Widget row of the report over
`dbReports` is not the saleless Gizmo (id 3). -/
theorem best_selling_excludes_saleless_witness :
    (sampleProduct, (5 : Int)).1 ≠ gizmo :=
  best_selling_excludes_saleless dbReports 10 gizmo (by decide)
    (sampleProduct, (5 : Int)) (by decide)

end Store
